import Mathlib

/-!
Shallow embedding of the gridaurora repository: src/gridaurora/init.py
(index time-series pipeline) and src/gridaurora/filterload.py (optical
system transmittance pipeline), together with theorems settling the
specification claims about them.

Modelling conventions: calendar dates are integers (day numbers), numeric
table data is rational where the Python code computes exactly, and real
where the code goes through exp/log; a float NaN cell is an Option that is
none; Python exceptions are the error side of Except.
-/

/-! ### Remote sources and the file selector (init.py lines 11-13, 138-158) -/

def URLrecent : String := "ftp://ftp.swpc.noaa.gov/pub/weekly/RecentIndices.txt"

def URL45dayfcast : String := "http://services.swpc.noaa.gov/text/45-day-ap-forecast.txt"

def URL20yearfcast : String := "https://sail.msfc.nasa.gov/solar_report_archives/May2016Rpt.pdf"

/-- Python str.split with a one-character separator, keeping empty pieces. -/
def splitChar (c : Char) : List Char → List (List Char)
  | [] => [[]]
  | a :: as =>
    let r := splitChar c as
    if a = c then [] :: r else (a :: r.headD []) :: r.tail

/-- The last slash-separated segment of a URL: url.split(slash)[-1]. -/
def lastSegment (url : String) : String :=
  String.mk ((splitChar '/' url.toList).getLastD [])

/-- pathlib with_suffix applied with .txt: the text after the final dot of the
name is replaced by txt (appended when the name has no dot). -/
def withSuffixTxt (name : String) : String :=
  let parts := splitChar '.' name.toList
  if parts.length ≤ 1 then name ++ ".txt"
  else String.mk (List.intercalate ['.'] parts.dropLast) ++ ".txt"

/-- selectApfile (init.py lines 138-158): pick the cache filename and URL from
the target date against today. The path prefix is dropped; only the name
component of the returned file matters downstream. -/
def selectApfile (time tnow : Int) : String × String :=
  if time < tnow then
    (lastSegment URLrecent, URLrecent)
  else if tnow ≤ time ∧ time < tnow + 45 then
    (lastSegment URL45dayfcast, URL45dayfcast)
  else
    (withSuffixTxt (lastSegment URL20yearfcast), URL20yearfcast)

/-- The three format readers of getApF107. -/
inductive ApReader : Type where
  | past : ApReader
  | fcast45 : ApReader
  | fcast20 : ApReader
deriving DecidableEq

/-- The three filename patterns tested by getApF107 (init.py lines 45-52);
none matching raises FileNotFoundError, modelled as the none result. -/
def dispatchReader (name : String) : Option ApReader :=
  if name = lastSegment URLrecent then some .past
  else if name = lastSegment URL45dayfcast then some .fcast45
  else if name = String.mk ((splitChar '.' (lastSegment URL20yearfcast).toList).headD []) ++ ".txt" then
    some .fcast20
  else none

/-- The filename patterns of the dispatch chain, in test order. -/
def dispatchNames : List String :=
  [lastSegment URLrecent,
   lastSegment URL45dayfcast,
   String.mk ((splitChar '.' (lastSegment URL20yearfcast).toList).headD []) ++ ".txt"]

/-! ### moving_average (init.py lines 64-70) and the numpy convolution it calls -/

/-- numpy full discrete convolution of two sequences. -/
def convolve_full (a v : List ℚ) : List ℚ :=
  (List.range (a.length + v.length - 1)).map fun k =>
    ((List.range (k + 1)).map fun i => a.getD i 0 * v.getD (k - i) 0).sum

/-- numpy convolve with mode same: the centered max(M,N) entries of the full
convolution. -/
def convolve_same (a v : List ℚ) : List ℚ :=
  ((convolve_full a v).drop ((min a.length v.length - 1) / 2)).take (max a.length v.length)

/-- moving_average (init.py lines 64-70). Besides the explicit guard raising
ValueError when periods exceeds the data size, numpy itself raises ValueError
for np.ones of a negative size and for convolving with an empty array, which
happens exactly when periods is nonpositive. -/
def moving_average (dat : List ℚ) (periods : Int) : Except String (List ℚ) :=
  if periods > (dat.length : Int) then
    .error "cannot smooth over more time periods than exist in the data"
  else if periods < 0 then
    .error "negative dimensions are not allowed"
  else if periods = 0 ∨ dat.length = 0 then
    .error "cannot convolve with an empty array"
  else
    .ok (convolve_same dat (List.replicate periods.toNat ((1 : ℚ) / (periods : ℚ))))

/-! ### readpast (init.py lines 90-100) -/

/-- The two index fields of the parsed recent-indices table. Cells are Option
valued: none stands for a float NaN produced by np.loadtxt. -/
structure PastData where
  f107 : List (Option ℚ)
  Ap : List (Option ℚ)
deriving DecidableEq

/-- One cell of Dataset.fillna: a NaN cell becomes the fill value. -/
def fillna (fill : ℚ) (x : Option ℚ) : Option ℚ :=
  some (x.getD fill)

/-- readpast (init.py lines 90-100). Rows are the usecols=(0,1,7,8,9,10)
selection of the source table, so dat[:,2] is source column 7 (f107) and
dat[:,4] is source column 9 (Ap); then data.fillna(-1) per NOAA convention. -/
def readpast (rows : List (List (Option ℚ))) : PastData :=
  let f107 := rows.map fun r => r.getD 2 none
  let ap := rows.map fun r => r.getD 4 none
  { f107 := f107.map (fillna (-1)), Ap := ap.map (fillna (-1)) }

/-! ### The smoothing step of getApF107 (init.py lines 53-57) -/

/-- The parsed index table as getApF107 holds it: time coordinate (in days),
the two parsed fields, and the optional smoothed fields added later. -/
structure ApDataset where
  time : List ℚ
  f107 : List ℚ
  Ap : List ℚ
  f107s : Option (List ℚ) := none
  Aps : Option (List ℚ) := none
deriving DecidableEq

/-- np.rint: round to nearest integer, halves to even. -/
def np_rint (q : ℚ) : Int :=
  let f := ⌊q⌋
  let r := q - (f : ℚ)
  if r < 1 / 2 then f
  else if 1 / 2 < r then f + 1
  else if f % 2 = 0 then f else f + 1

/-- periods = np.rint(timedelta(days=smoothdays) / (dat.time[1] - dat.time[0]))
with times measured in days (init.py line 55). -/
def smoothPeriods (dat : ApDataset) (smoothdays : Int) : Int :=
  np_rint ((smoothdays : ℚ) / (dat.time.getD 1 0 - dat.time.getD 0 0))

/-- The optional smoothing block of getApF107 (init.py lines 53-57): when
smoothdays is an int, compute the window in sample periods and assign the two
new smoothed variables; the original variables are not reassigned. -/
def addSmoothing (dat : ApDataset) (smoothdays : Option Int) : Except String ApDataset :=
  match smoothdays with
  | none => .ok dat
  | some sd =>
    let periods := smoothPeriods dat sd
    match moving_average dat.f107 periods with
    | .error e => .error e
    | .ok f107sm =>
      match moving_average dat.Ap periods with
      | .error e => .error e
      | .ok apsm => .ok { dat with f107s := some f107sm, Aps := some apsm }

/-! ### todate (init.py lines 217-234) -/

/-- The Python exceptions todate and its callees can raise. -/
inductive PyErr : Type where
  | typeError : PyErr
  | valueError : PyErr
deriving DecidableEq

/-- The storage unit class of a numpy datetime64, which decides what its
astype to datetime.date returns: a date for day-or-coarser units (Y, M, W, D),
a datetime (carrying a time of day) for sub-day units down to microseconds
(h, m, s, ms, us), and a plain integer epoch count for sub-microsecond units
(ns, ps, fs, as), which Python datetime objects cannot represent. -/
inductive Np64Kind : Type where
  | dayUnit : Np64Kind
  | subDayUnit : ℚ → Np64Kind
  | subMicroUnit : Np64Kind
deriving DecidableEq

mutual
/-- Python values reaching todate: a string, datetime.datetime (a day plus a
time of day), numpy datetime64 (a day number plus its unit class), a plain
integer (as astype on a sub-microsecond datetime64 produces), datetime.date, a
tuple/list/ndarray collection, or anything else. -/
inductive PyObj : Type where
  | str : String → PyObj
  | dt : Int → ℚ → PyObj
  | npdt64 : Int → Np64Kind → PyObj
  | int : Int → PyObj
  | d : Int → PyObj
  | coll : PyList → PyObj
  | other : PyObj
/-- A Python sequence of values. -/
inductive PyList : Type where
  | nil : PyList
  | cons : PyObj → PyList → PyList
end

mutual
/-- todate (init.py lines 217-234). The parse argument models
dateutil.parser.parse, returning the parsed datetime or failing (ValueError).
On a string the code recurses on the parsed datetime, which immediately
returns its date component; that recursion is inlined here. On a datetime64
the code takes astype to date: the result is kept when it is a date, has its
date taken when it is a datetime, and is returned unchanged when it is the
plain integer a sub-microsecond unit produces, the isinstance datetime check
being false for it. A plain integer input falls through every isinstance
check and raises TypeError. -/
def todate (parse : String → Option (Int × ℚ)) : PyObj → Except PyErr PyObj
  | .str s =>
    match parse s with
    | some p => .ok (.d p.1)
    | none => .error .valueError
  | .dt day _ => .ok (.d day)
  | .npdt64 v kind =>
    match kind with
    | .dayUnit => .ok (.d v)
    | .subDayUnit _ => .ok (.d v)
    | .subMicroUnit => .ok (.int v)
  | .int _ => .error .typeError
  | .d day => .ok (.d day)
  | .coll l =>
    match todateList parse l with
    | .ok ys => .ok (.coll ys)
    | .error e => .error e
  | .other => .error .typeError
/-- list(map(todate, time)): elementwise todate, stopping at the first
exception, as Python evaluation does. -/
def todateList (parse : String → Option (Int × ℚ)) : PyList → Except PyErr PyList
  | .nil => .ok .nil
  | .cons x xs =>
    match todate parse x with
    | .error e => .error e
    | .ok y =>
      match todateList parse xs with
      | .error e => .error e
      | .ok ys => .ok (.cons y ys)
end

mutual
/-- A value is a recognized date representation for todate: a string, a
datetime, a numpy datetime64, a date, or a collection of recognized values.
A plain integer is not recognized (todate raises TypeError on it). -/
def recognizedObj : PyObj → Bool
  | .str _ => true
  | .dt _ _ => true
  | .npdt64 _ _ => true
  | .int _ => false
  | .d _ => true
  | .coll l => recognizedList l
  | .other => false
/-- Every element of the sequence is recognized. -/
def recognizedList : PyList → Bool
  | .nil => true
  | .cons x xs => recognizedObj x && recognizedList xs
end

mutual
/-- A value holds no sub-microsecond datetime64, whose astype to date yields a
plain integer that a second todate application rejects with TypeError. -/
def microSafeObj : PyObj → Bool
  | .npdt64 _ .subMicroUnit => false
  | .coll l => microSafeList l
  | _ => true
/-- Every element of the sequence holds no sub-microsecond datetime64. -/
def microSafeList : PyList → Bool
  | .nil => true
  | .cons x xs => microSafeObj x && microSafeList xs
end

/-- A parse model that fails on every string, as dateutil does on garbage. -/
def parseNone : String → Option (Int × ℚ) := fun _ => none

/-- A parse model that succeeds on every string. -/
def parseAny : String → Option (Int × ℚ) := fun _ => some (0, 0)

/-! ### filterload.getSystemT (filterload.py lines 24-84) and
chapman_profile (init.py lines 237-246), over the reals -/

noncomputable section

/-- np.spacing(1), the smallest representable increment above 1: 2 ^ (-52). -/
def eps1 : ℝ := (2 : ℝ) ^ (-52 : ℤ)

/-- atmTcleaned (filterload.py line 42): exact-zero transmittance samples are
replaced by np.spacing(1) before the logarithm is taken. Applied to the
atmospheric curve only. -/
def cleanZeros (c : List (ℝ × ℝ)) : List (ℝ × ℝ) :=
  c.map fun p => (p.1, if p.2 = 0 then eps1 else p.2)

/-- The curve whose values are the logarithms of the given curve values:
the tables handed to scipy interp1d in filterload.py lines 43, 56, 68, 71. -/
def logCurve (c : List (ℝ × ℝ)) : List (ℝ × ℝ) :=
  c.map fun p => (p.1, Real.log p.2)

/-- The values the atmospheric pipeline passes to log: the cleaned samples. -/
def atmLogArgs (atm : List (ℝ × ℝ)) : List ℝ :=
  (cleanZeros atm).map Prod.snd

/-- The values the BG3 filter pipeline passes to log (filterload.py line 56):
the raw samples, with no zero replacement. -/
def filterLogArgs (bg3 : List (ℝ × ℝ)) : List ℝ :=
  bg3.map Prod.snd

/-- The values the camera-window pipeline passes to log (line 68). -/
def windowLogArgs (wind : List (ℝ × ℝ)) : List ℝ :=
  wind.map Prod.snd

/-- The values the quantum-efficiency pipeline passes to log (line 71). -/
def qeLogArgs (qef : List (ℝ × ℝ)) : List ℝ :=
  qef.map Prod.snd

/-- scipy interp1d with kind linear, evaluated inside the tabulated range:
piecewise-linear interpolation through the (x, y) table. Behavior outside the
range (NaN under bounds_error=False) is not modelled; every claim restricts
queries to the tabulated range. -/
def interp1d : List (ℝ × ℝ) → ℝ → ℝ
  | [], _ => 0
  | [p], _ => p.2
  | p :: q :: rest, x =>
    if x ≤ q.1 then p.2 + (q.2 - p.2) * ((x - p.1) / (q.1 - p.1))
    else interp1d (q :: rest) x

/-- The per-wavelength output record of getSystemT. -/
structure SystemT where
  filter : ℝ
  window : ℝ
  qe : ℝ
  atm : ℝ
  sysNObg3 : ℝ
  sys : ℝ

/-- getSystemT (filterload.py lines 24-84) at one grid wavelength x: each of
the four curves is interpolated linearly in log space and exponentiated back
(lines 43-49 for the cleaned atmosphere, 56, 68, 71, 74-77), then composed as
sysNObg3 = window * qe * atm and sys = sysNObg3 * filter (lines 81-82). -/
def getSystemT (bg3 wind qef atmc : List (ℝ × ℝ)) (x : ℝ) : SystemT :=
  let filterT := Real.exp (interp1d (logCurve bg3) x)
  let windowT := Real.exp (interp1d (logCurve wind) x)
  let qeT := Real.exp (interp1d (logCurve qef) x)
  let atmT := Real.exp (interp1d (logCurve (cleanZeros atmc)) x)
  let nob := windowT * qeT * atmT
  { filter := filterT, window := windowT, qe := qeT, atm := atmT,
    sysNObg3 := nob, sys := nob * filterT }

/-- The hypotheses of the round-trip claim for one tabulated curve: strictly
increasing wavelengths, transmittance values in the half-open unit interval,
and the query wavelength inside the tabulated range. -/
def GoodCurve (c : List (ℝ × ℝ)) (x : ℝ) : Prop :=
  List.Chain' (fun p q : ℝ × ℝ => p.1 < q.1) c ∧
  (∀ p ∈ c, 0 < p.2 ∧ p.2 ≤ 1) ∧
  (c.headD (0, 0)).1 ≤ x ∧
  (∃ r ∈ c, x ≤ r.1)

/-- A flat transmittance table used as a concrete witness curve. -/
def unitCurve : List (ℝ × ℝ) := [(0, 1), (10, 1)]

/-- chapman_profile (init.py lines 237-246), elementwise over the altitude
grid. -/
def chapman_profile (Z0 : ℝ) (zKM : List ℝ) (H : ℝ) : List ℝ :=
  zKM.map fun z => Real.exp (0.5 * (1 - (z - Z0) / H - Real.exp ((Z0 - z) / H)))

end

/-- Concrete parsed table for the smoothing witness. -/
def datSmall : ApDataset := { time := [0, 1], f107 := [1, 2], Ap := [3, 4] }

/-- The smoothing witness table after smoothing with a one-day window. -/
def datSmallSmoothed : ApDataset :=
  { time := [0, 1], f107 := [1, 2], Ap := [3, 4], f107s := some [1, 2], Aps := some [3, 4] }

/-- Concrete usecols row with NaN in both index columns, for the readpast
witness. -/
def sampleRows : List (List (Option ℚ)) :=
  [[some 2000, some 1, none, some 0, none, some 0]]

/-! ## Theorems -/

/-! ### C1, C10: source selection and dispatch -/

/-- Helper: selectApfile always returns one of its three branches. -/
theorem selectApfile_cases (t tnow : Int) :
    selectApfile t tnow = (lastSegment URLrecent, URLrecent) ∨
    selectApfile t tnow = (lastSegment URL45dayfcast, URL45dayfcast) ∨
    selectApfile t tnow = (withSuffixTxt (lastSegment URL20yearfcast), URL20yearfcast) := by
  unfold selectApfile
  split
  · exact Or.inl rfl
  split
  · exact Or.inr (Or.inl rfl)
  · exact Or.inr (Or.inr rfl)

/-- C1: for every target date, selectApfile chooses the recent-indices source
when the date is strictly before today, the 45-day forecast source when it is
in the window from today up to but excluding today plus 45 days, and the
20-year forecast source when it is at least today plus 45 days. -/
theorem C1_selectApfile_date_ranges (t tnow : Int) :
    (t < tnow → (selectApfile t tnow).2 = URLrecent) ∧
    (tnow ≤ t → t < tnow + 45 → (selectApfile t tnow).2 = URL45dayfcast) ∧
    (tnow + 45 ≤ t → (selectApfile t tnow).2 = URL20yearfcast) := by
  refine ⟨fun h => ?_, fun h1 h2 => ?_, fun h => ?_⟩ <;> simp only [selectApfile]
  · rw [if_pos h]
  · rw [if_neg (by omega), if_pos ⟨h1, h2⟩]
  · rw [if_neg (by omega), if_neg (by omega)]

/-- Witness for C1 at concrete dates: day 0 against today 1 is past, day 1 is
in the 45-day window, day 46 is beyond it. -/
theorem C1_selectApfile_witness :
    (selectApfile 0 1).2 = URLrecent ∧
    (selectApfile 1 1).2 = URL45dayfcast ∧
    (selectApfile 46 1).2 = URL20yearfcast :=
  ⟨(C1_selectApfile_date_ranges 0 1).1 (by decide),
   (C1_selectApfile_date_ranges 1 1).2.1 (by decide) (by decide),
   (C1_selectApfile_date_ranges 46 1).2.2 (by decide)⟩

/-- C10: whatever the target date, the cache filename selectApfile returns
matches exactly one of the three patterns tested by the parser dispatch of
getApF107, so the final could-not-determine FileNotFoundError branch is
unreachable for filenames coming from selectApfile. -/
theorem C10_dispatch_total (t tnow : Int) :
    dispatchNames.count (selectApfile t tnow).1 = 1 ∧
    (dispatchReader (selectApfile t tnow).1).isSome = true := by
  rcases selectApfile_cases t tnow with h | h | h <;> rw [h] <;> exact ⟨by decide, by decide⟩

/-! ### C2: moving_average error behavior and output length -/

/-- Helper: the full convolution has length M + N - 1. -/
theorem convolve_full_length (a v : List ℚ) :
    (convolve_full a v).length = a.length + v.length - 1 := by
  simp [convolve_full]

/-- Helper: for nonempty inputs, mode-same convolution has length max(M, N). -/
theorem convolve_same_length (a v : List ℚ) (ha : a.length ≠ 0) (hv : v.length ≠ 0) :
    (convolve_same a v).length = max a.length v.length := by
  simp only [convolve_same, List.length_take, List.length_drop, convolve_full_length]
  omega

/-- Counterexample to C2: over the one-element series with periods = 0 the
window does not exceed the series length, yet the code raises ValueError (from
np.convolve on an empty kernel) instead of returning a length-1 series. -/
theorem C2_moving_average_counterexample :
    moving_average [(1 : ℚ)] 0 = .error "cannot convolve with an empty array" ∧
    (0 : Int) ≤ (([(1 : ℚ)].length : Nat) : Int) := by
  refine ⟨?_, by norm_num⟩
  norm_num [moving_average]

/-- C2 (amended): moving_average raises ValueError exactly when the requested
window exceeds the series length or is nonpositive; for a window between 1 and
the series length it returns a series of exactly the input length. -/
theorem C2_moving_average_error_iff (dat : List ℚ) (periods : Int) :
    ((∃ e, moving_average dat periods = .error e) ↔
      (periods > (dat.length : Int) ∨ periods ≤ 0)) ∧
    (1 ≤ periods → periods ≤ (dat.length : Int) →
      ∃ out, moving_average dat periods = .ok out ∧ out.length = dat.length) := by
  unfold moving_average
  split_ifs with h1 h2 h3
  · exact ⟨⟨fun _ => Or.inl h1, fun _ => ⟨_, rfl⟩⟩, fun ha hb => absurd h1 (by omega)⟩
  · exact ⟨⟨fun _ => Or.inr (by omega), fun _ => ⟨_, rfl⟩⟩, fun ha _ => absurd h2 (by omega)⟩
  · refine ⟨⟨fun _ => ?_, fun _ => ⟨_, rfl⟩⟩, fun ha hb => ?_⟩
    · rcases h3 with h | h
      · exact Or.inr (by omega)
      · exact Or.inr (by omega)
    · rcases h3 with h | h
      · omega
      · exact absurd h1 (by omega)
  · refine ⟨⟨fun ⟨e, he⟩ => absurd he (by simp), fun h => ?_⟩, fun ha hb => ?_⟩
    · exact absurd h (by push_neg; constructor <;> omega)
    · refine ⟨_, rfl, ?_⟩
      rw [convolve_same_length dat _ (by omega) (by simp [List.length_replicate]; omega)]
      simp only [List.length_replicate]
      omega

/-- Witness for C2 at a concrete input: a 3-sample series smoothed with a
2-sample window returns a series of length 3. -/
theorem C2_moving_average_witness :
    (1 : Int) ≤ 2 ∧ (2 : Int) ≤ (([(1 : ℚ), 2, 3].length : Nat) : Int) ∧
    ∃ out, moving_average [(1 : ℚ), 2, 3] 2 = .ok out ∧ out.length = [(1 : ℚ), 2, 3].length :=
  ⟨by norm_num, by norm_num,
   (C2_moving_average_error_iff [(1 : ℚ), 2, 3] 2).2 (by norm_num) (by norm_num)⟩

/-! ### C5: readpast fills missing cells with -1 -/

/-- C5: the table readpast returns has no NaN in the f107 or Ap field, and
every cell that was absent (NaN) in the source table comes out as exactly -1. -/
theorem C5_readpast_no_nan (rows : List (List (Option ℚ))) :
    (∀ v ∈ (readpast rows).f107, v ≠ none) ∧
    (∀ v ∈ (readpast rows).Ap, v ≠ none) ∧
    (∀ i : Nat, ∀ row : List (Option ℚ), rows[i]? = some row →
      ((row.getD 2 none = none → (readpast rows).f107[i]? = some (some (-1))) ∧
       (row.getD 4 none = none → (readpast rows).Ap[i]? = some (some (-1))))) := by
  refine ⟨?_, ?_, ?_⟩
  · intro v hv
    simp only [readpast, List.map_map, List.mem_map] at hv
    obtain ⟨r, _, rfl⟩ := hv
    simp [fillna]
  · intro v hv
    simp only [readpast, List.map_map, List.mem_map] at hv
    obtain ⟨r, _, rfl⟩ := hv
    simp [fillna]
  · intro i row hrow
    have hf : (readpast rows).f107[i]? = some (fillna (-1) (row.getD 2 none)) := by
      simp only [readpast, List.map_map, List.getElem?_map, hrow, Option.map_some',
        Function.comp_apply]
    have hA : (readpast rows).Ap[i]? = some (fillna (-1) (row.getD 4 none)) := by
      simp only [readpast, List.map_map, List.getElem?_map, hrow, Option.map_some',
        Function.comp_apply]
    constructor <;> intro hcell
    · rw [hf, hcell]; rfl
    · rw [hA, hcell]; rfl

/-- Witness for C5: a concrete row whose f107 and Ap cells are NaN comes out
with -1 in both fields. -/
theorem C5_readpast_witness :
    (readpast sampleRows).f107[0]? = (some (some (-1)) : Option (Option ℚ)) ∧
    (readpast sampleRows).Ap[0]? = (some (some (-1)) : Option (Option ℚ)) :=
  ⟨((C5_readpast_no_nan sampleRows).2.2 0
      ([some 2000, some 1, none, some 0, none, some 0] : List (Option ℚ)) rfl).1 rfl,
   ((C5_readpast_no_nan sampleRows).2.2 0
      ([some 2000, some 1, none, some 0, none, some 0] : List (Option ℚ)) rfl).2 rfl⟩

/-! ### C9: smoothing adds new fields and leaves the originals unchanged -/

/-- C9: when the smoothing step of getApF107 succeeds, the time coordinate and
the original f107 and Ap fields are returned unchanged; only the smoothed
fields are assigned. -/
theorem C9_smoothing_preserves_originals (dat : ApDataset) (smoothdays : Option Int)
    (out : ApDataset) (h : addSmoothing dat smoothdays = .ok out) :
    out.time = dat.time ∧ out.f107 = dat.f107 ∧ out.Ap = dat.Ap := by
  cases smoothdays with
  | none =>
    have h2 : (Except.ok dat : Except String ApDataset) = .ok out := h
    cases h2
    exact ⟨rfl, rfl, rfl⟩
  | some sd =>
    have he : addSmoothing dat (some sd) =
        (match moving_average dat.f107 (smoothPeriods dat sd) with
         | .error e => .error e
         | .ok f107sm =>
           match moving_average dat.Ap (smoothPeriods dat sd) with
           | .error e => .error e
           | .ok apsm => .ok { dat with f107s := some f107sm, Aps := some apsm }) := rfl
    rw [he] at h
    cases hf : moving_average dat.f107 (smoothPeriods dat sd) with
    | error e => rw [hf] at h; cases h
    | ok f107sm =>
      rw [hf] at h
      cases ha : moving_average dat.Ap (smoothPeriods dat sd) with
      | error e => rw [ha] at h; cases h
      | ok apsm =>
        rw [ha] at h
        cases h
        exact ⟨rfl, rfl, rfl⟩

/-- Witness for C9: smoothing the concrete two-sample table with a one-day
window succeeds and leaves time, f107 and Ap unchanged. -/
theorem C9_smoothing_witness :
    addSmoothing datSmall (some 1) = .ok datSmallSmoothed ∧
    (datSmallSmoothed.time = datSmall.time ∧ datSmallSmoothed.f107 = datSmall.f107 ∧
      datSmallSmoothed.Ap = datSmall.Ap) := by
  have hp : smoothPeriods datSmall 1 = 1 := by
    norm_num [smoothPeriods, np_rint, datSmall]
  have hma : ∀ l : List ℚ, l.length = 2 → moving_average l 1 = .ok (convolve_same l [1]) := by
    intro l hl
    have h1 : (1 : Int).toNat = 1 := rfl
    norm_num [moving_average, hl, h1, List.replicate]
  have h : addSmoothing datSmall (some 1) = .ok datSmallSmoothed := by
    have he : addSmoothing datSmall (some 1) =
        (match moving_average datSmall.f107 (smoothPeriods datSmall 1) with
         | .error e => .error e
         | .ok f107sm =>
           match moving_average datSmall.Ap (smoothPeriods datSmall 1) with
           | .error e => .error e
           | .ok apsm => .ok { datSmall with f107s := some f107sm, Aps := some apsm }) := rfl
    rw [he, hp, hma datSmall.f107 rfl, hma datSmall.Ap rfl]
    have hcf : convolve_same datSmall.f107 [1] = [1, 2] := by
      norm_num [convolve_same, convolve_full, datSmall, List.range_succ]
    have hca : convolve_same datSmall.Ap [1] = [3, 4] := by
      norm_num [convolve_same, convolve_full, datSmall, List.range_succ]
    rw [hcf, hca]
    rfl
  exact ⟨h, C9_smoothing_preserves_originals datSmall (some 1) datSmallSmoothed h⟩

/-! ### C6, C7: todate idempotence and its error taxonomy -/

mutual
/-- Helper for C6: on an input free of sub-microsecond datetime64 values, a
successful todate result is a fixed point of todate. -/
theorem todate_idem_aux (parse : String → Option (Int × ℚ)) (x : PyObj) :
    microSafeObj x = true →
    ∀ y, todate parse x = .ok y → todate parse y = .ok y := by
  cases x with
  | str s =>
    intro _ y h
    cases hp : parse s with
    | some p =>
      simp only [todate, hp] at h
      cases h
      simp [todate]
    | none => simp [todate, hp] at h
  | dt day secs =>
    intro _ y h
    simp only [todate] at h
    cases h
    simp [todate]
  | npdt64 v kind =>
    intro hms y h
    cases kind with
    | dayUnit =>
      simp only [todate] at h
      cases h
      simp [todate]
    | subDayUnit t =>
      simp only [todate] at h
      cases h
      simp [todate]
    | subMicroUnit => simp [microSafeObj] at hms
  | int v =>
    intro _ y h
    simp [todate] at h
  | d day =>
    intro _ y h
    simp only [todate] at h
    cases h
    simp [todate]
  | coll l =>
    intro hms y h
    simp only [microSafeObj] at hms
    cases hL : todateList parse l with
    | ok ys =>
      simp only [todate, hL] at h
      cases h
      simp only [todate]
      rw [todateList_idem_aux parse l hms ys hL]
    | error e => simp [todate, hL] at h
  | other =>
    intro _ y h
    simp [todate] at h
/-- Helper for C6, list form. -/
theorem todateList_idem_aux (parse : String → Option (Int × ℚ)) (l : PyList) :
    microSafeList l = true →
    ∀ ys, todateList parse l = .ok ys → todateList parse ys = .ok ys := by
  cases l with
  | nil =>
    intro _ ys h
    simp only [todateList] at h
    cases h
    simp [todateList]
  | cons x xs =>
    intro hms ys h
    simp only [microSafeList, Bool.and_eq_true] at hms
    cases hx : todate parse x with
    | error e => simp [todateList, hx] at h
    | ok y =>
      cases hxs : todateList parse xs with
      | error e => simp [todateList, hx, hxs] at h
      | ok ys2 =>
        simp only [todateList, hx, hxs] at h
        cases h
        simp only [todateList]
        rw [todate_idem_aux parse x hms.1 y hx, todateList_idem_aux parse xs hms.2 ys2 hxs]
end

/-- Counterexample to C6: on a sub-microsecond numpy datetime64 (for example
any datetime64 with nanosecond unit, a valid date-like input), todate succeeds
returning the plain integer astype produces, and applying todate to that
result raises TypeError instead of returning it, so todate(todate(x)) is not
todate(x). -/
theorem C6_idempotence_counterexample :
    todate parseNone (.npdt64 0 .subMicroUnit) = .ok (.int 0) ∧
    todate parseNone (.int 0) = .error .typeError := by
  constructor <;> simp [todate]

/-- C6 (amended): todate is idempotent on every valid date-like input whose
datetime64 components have microsecond-or-coarser units: whenever todate
succeeds on such an input (with any model of dateutil parse), running todate
again on the result returns that result unchanged. A sub-microsecond
datetime64 is excluded because its astype yields a plain integer, which a
second todate application rejects with TypeError. -/
theorem C6_todate_idempotent (parse : String → Option (Int × ℚ)) (x y : PyObj)
    (hms : microSafeObj x = true) (h : todate parse x = .ok y) :
    todate parse y = .ok y :=
  todate_idem_aux parse x hms y h

/-- Witness for C6: a concrete microsecond-unit datetime64 input maps to its
date, which todate maps to itself. -/
theorem C6_todate_witness :
    microSafeObj (.npdt64 100 (.subDayUnit (1 / 2))) = true ∧
    todate parseNone (.npdt64 100 (.subDayUnit (1 / 2))) = .ok (.d 100) ∧
    todate parseNone (.d 100) = .ok (.d 100) :=
  ⟨by simp [microSafeObj], by simp [todate],
   C6_todate_idempotent parseNone (.npdt64 100 (.subDayUnit (1 / 2))) (.d 100)
     (by simp [microSafeObj]) (by simp [todate])⟩

mutual
/-- Helper for C7: a TypeError from todate only arises on an unrecognized
input. -/
theorem todate_tyerr_aux (parse : String → Option (Int × ℚ)) (x : PyObj) :
    todate parse x = .error .typeError → recognizedObj x = false := by
  cases x with
  | str s =>
    intro h
    cases hp : parse s <;> simp [todate, hp] at h
  | dt day secs => intro h; simp [todate] at h
  | npdt64 v kind => intro h; cases kind <;> simp [todate] at h
  | int v => intro h; simp [recognizedObj]
  | d day => intro h; simp [todate] at h
  | coll l =>
    intro h
    cases hL : todateList parse l with
    | ok ys => simp [todate, hL] at h
    | error e =>
      simp only [todate, hL] at h
      cases h
      simp only [recognizedObj]
      exact todateList_tyerr_aux parse l hL
  | other => intro h; simp [recognizedObj]
/-- Helper for C7, list form. -/
theorem todateList_tyerr_aux (parse : String → Option (Int × ℚ)) (l : PyList) :
    todateList parse l = .error .typeError → recognizedList l = false := by
  cases l with
  | nil => intro h; simp [todateList] at h
  | cons x xs =>
    intro h
    cases hx : todate parse x with
    | error e =>
      simp only [todateList, hx] at h
      cases h
      simp only [recognizedList, Bool.and_eq_false_iff]
      exact Or.inl (todate_tyerr_aux parse x hx)
    | ok y =>
      cases hxs : todateList parse xs with
      | error e =>
        simp only [todateList, hx, hxs] at h
        cases h
        simp only [recognizedList, Bool.and_eq_false_iff]
        exact Or.inr (todateList_tyerr_aux parse xs hxs)
      | ok ys => simp [todateList, hx, hxs] at h
end

mutual
/-- Helper for C7: an unrecognized input always raises some exception. -/
theorem todate_unrec_aux (parse : String → Option (Int × ℚ)) (x : PyObj) :
    recognizedObj x = false → ∃ e, todate parse x = .error e := by
  cases x with
  | str s => intro h; simp [recognizedObj] at h
  | dt day secs => intro h; simp [recognizedObj] at h
  | npdt64 v kind => intro h; simp [recognizedObj] at h
  | int v => intro h; exact ⟨.typeError, by simp [todate]⟩
  | d day => intro h; simp [recognizedObj] at h
  | coll l =>
    intro h
    simp only [recognizedObj] at h
    obtain ⟨e, he⟩ := todateList_unrec_aux parse l h
    exact ⟨e, by simp [todate, he]⟩
  | other => intro h; exact ⟨.typeError, by simp [todate]⟩
/-- Helper for C7, list form. -/
theorem todateList_unrec_aux (parse : String → Option (Int × ℚ)) (l : PyList) :
    recognizedList l = false → ∃ e, todateList parse l = .error e := by
  cases l with
  | nil => intro h; simp [recognizedList] at h
  | cons x xs =>
    intro h
    simp only [recognizedList, Bool.and_eq_false_iff] at h
    cases hx : todate parse x with
    | error e => exact ⟨e, by simp [todateList, hx]⟩
    | ok y =>
      rcases h with h | h
      · obtain ⟨e, he⟩ := todate_unrec_aux parse x h
        rw [hx] at he
        cases he
      · obtain ⟨e, he⟩ := todateList_unrec_aux parse xs h
        exact ⟨e, by simp [todateList, hx, he]⟩
end

mutual
/-- Helper for C7: when string parsing always succeeds, every recognized input
succeeds. -/
theorem todate_rec_ok_aux (parse : String → Option (Int × ℚ))
    (hp : ∀ s, (parse s).isSome = true) (x : PyObj) :
    recognizedObj x = true → ∃ y, todate parse x = .ok y := by
  cases x with
  | str s =>
    intro _
    cases hps : parse s with
    | some p => exact ⟨.d p.1, by simp [todate, hps]⟩
    | none => exact absurd (hp s) (by simp [hps])
  | dt day secs => intro _; exact ⟨.d day, by simp [todate]⟩
  | npdt64 v kind =>
    intro _
    cases kind with
    | dayUnit => exact ⟨.d v, by simp [todate]⟩
    | subDayUnit t => exact ⟨.d v, by simp [todate]⟩
    | subMicroUnit => exact ⟨.int v, by simp [todate]⟩
  | int v => intro h; simp [recognizedObj] at h
  | d day => intro _; exact ⟨.d day, by simp [todate]⟩
  | coll l =>
    intro h
    simp only [recognizedObj] at h
    obtain ⟨ys, hys⟩ := todateList_rec_ok_aux parse hp l h
    exact ⟨.coll ys, by simp [todate, hys]⟩
  | other => intro h; simp [recognizedObj] at h
/-- Helper for C7, list form. -/
theorem todateList_rec_ok_aux (parse : String → Option (Int × ℚ))
    (hp : ∀ s, (parse s).isSome = true) (l : PyList) :
    recognizedList l = true → ∃ ys, todateList parse l = .ok ys := by
  cases l with
  | nil => intro _; exact ⟨.nil, by simp [todateList]⟩
  | cons x xs =>
    intro h
    simp only [recognizedList, Bool.and_eq_true] at h
    obtain ⟨y, hy⟩ := todate_rec_ok_aux parse hp x h.1
    obtain ⟨ys, hys⟩ := todateList_rec_ok_aux parse hp xs h.2
    exact ⟨.cons y ys, by simp [todateList, hy, hys]⟩
end

mutual
/-- Helper for C7: when string parsing always succeeds, every unrecognized
input raises TypeError. -/
theorem todate_unrec_tyerr_aux (parse : String → Option (Int × ℚ))
    (hp : ∀ s, (parse s).isSome = true) (x : PyObj) :
    recognizedObj x = false → todate parse x = .error .typeError := by
  cases x with
  | str s => intro h; simp [recognizedObj] at h
  | dt day secs => intro h; simp [recognizedObj] at h
  | npdt64 v kind => intro h; simp [recognizedObj] at h
  | int v => intro _; simp [todate]
  | d day => intro h; simp [recognizedObj] at h
  | coll l =>
    intro h
    simp only [recognizedObj] at h
    have := todateList_unrec_tyerr_aux parse hp l h
    simp [todate, this]
  | other => intro _; simp [todate]
/-- Helper for C7, list form. -/
theorem todateList_unrec_tyerr_aux (parse : String → Option (Int × ℚ))
    (hp : ∀ s, (parse s).isSome = true) (l : PyList) :
    recognizedList l = false → todateList parse l = .error .typeError := by
  cases l with
  | nil => intro h; simp [recognizedList] at h
  | cons x xs =>
    intro h
    simp only [recognizedList, Bool.and_eq_false_iff] at h
    cases hx : recognizedObj x with
    | false =>
      have := todate_unrec_tyerr_aux parse hp x hx
      simp [todateList, this]
    | true =>
      obtain ⟨y, hy⟩ := todate_rec_ok_aux parse hp x hx
      have hxs : recognizedList xs = false := by
        rcases h with h | h
        · rw [hx] at h; cases h
        · exact h
      have := todateList_unrec_tyerr_aux parse hp xs hxs
      simp [todateList, hy, this]
end

/-- Counterexample to C7: a collection holding an unparseable string followed
by an unrecognized object is not a collection of date-like values, yet todate
raises ValueError (from the string, hit first) rather than TypeError. -/
theorem C7_typeerror_counterexample :
    recognizedObj (.coll (.cons (.str "x") (.cons .other .nil))) = false ∧
    todate parseNone (.coll (.cons (.str "x") (.cons .other .nil))) = .error .valueError := by
  constructor
  · simp [recognizedObj, recognizedList]
  · simp [todate, todateList, parseNone]

/-- C7 (amended): todate raises TypeError only for unrecognized
representations; every unrecognized representation raises some exception, and
it raises TypeError specifically whenever string parsing succeeds everywhere
(an unparseable string earlier in a collection raises ValueError first). -/
theorem C7_todate_typeerror (parse : String → Option (Int × ℚ)) (x : PyObj) :
    (todate parse x = .error .typeError → recognizedObj x = false) ∧
    (recognizedObj x = false → ∃ e, todate parse x = .error e) ∧
    ((∀ s, (parse s).isSome = true) →
      (todate parse x = .error .typeError ↔ recognizedObj x = false)) :=
  ⟨todate_tyerr_aux parse x,
   todate_unrec_aux parse x,
   fun hp => ⟨todate_tyerr_aux parse x, todate_unrec_tyerr_aux parse hp x⟩⟩

/-- Witness for C7: with a total parse model, the unrecognized object raises
TypeError. -/
theorem C7_todate_witness :
    recognizedObj PyObj.other = false ∧
    todate parseAny PyObj.other = .error .typeError :=
  ⟨by simp [recognizedObj],
   ((C7_todate_typeerror parseAny PyObj.other).2.2 (fun s => by simp [parseAny])).2
     (by simp [recognizedObj])⟩

/-! ### C3, C4: getSystemT bounds and the zero-to-log remap -/

/-- Helper: piecewise-linear interpolation through nonpositive node values,
queried inside the tabulated range, stays nonpositive. -/
theorem interp1d_nonpos :
    ∀ (c : List (ℝ × ℝ)) (x : ℝ),
      List.Chain' (fun p q : ℝ × ℝ => p.1 < q.1) c →
      (∀ p ∈ c, p.2 ≤ 0) →
      (c.headD (0, 0)).1 ≤ x →
      (∃ r ∈ c, x ≤ r.1) →
      interp1d c x ≤ 0
  | [], x, _, _, _, _ => by simp [interp1d]
  | [p], x, _, hv, _, _ => by simpa [interp1d] using hv p (by simp)
  | p :: q :: rest, x, hc, hv, hhead, hlast => by
    rw [interp1d]
    by_cases hx : x ≤ q.1
    · rw [if_pos hx]
      have hpq : p.1 < q.1 := (List.chain'_cons.mp hc).1
      have hp2 : p.2 ≤ 0 := hv p (by simp)
      have hq2 : q.2 ≤ 0 := hv q (by simp)
      have hpx : p.1 ≤ x := by simpa using hhead
      set t := (x - p.1) / (q.1 - p.1) with ht
      have ht0 : 0 ≤ t := div_nonneg (by linarith) (by linarith)
      have ht1 : t ≤ 1 := (div_le_one (by linarith)).mpr (by linarith)
      nlinarith [mul_nonneg (sub_nonneg.mpr ht1) (neg_nonneg.mpr hp2),
        mul_nonneg ht0 (neg_nonneg.mpr hq2)]
    · rw [if_neg hx]
      push_neg at hx
      refine interp1d_nonpos (q :: rest) x (List.chain'_cons.mp hc).2
        (fun r hr => hv r (List.mem_cons_of_mem _ hr)) (by simpa using hx.le) ?_
      obtain ⟨r, hrmem, hrx⟩ := hlast
      rcases List.mem_cons.mp hrmem with rfl | hr2
      · have hpq : r.1 < q.1 := (List.chain'_cons.mp hc).1
        linarith
      · exact ⟨r, hr2, hrx⟩

/-- Helper: interpolating a curve in log space yields a nonpositive log value
when the curve values lie in the half-open unit interval. -/
theorem interpLog_nonpos (c : List (ℝ × ℝ)) (x : ℝ)
    (hc : List.Chain' (fun p q : ℝ × ℝ => p.1 < q.1) c)
    (hv : ∀ p ∈ c, 0 < p.2 ∧ p.2 ≤ 1)
    (hhead : (c.headD (0, 0)).1 ≤ x)
    (hlast : ∃ r ∈ c, x ≤ r.1) :
    interp1d (logCurve c) x ≤ 0 := by
  apply interp1d_nonpos
  · unfold logCurve
    rw [List.chain'_map]
    exact hc
  · intro p hp
    simp only [logCurve, List.mem_map] at hp
    obtain ⟨r, hr, rfl⟩ := hp
    exact Real.log_nonpos (hv r hr).1.le (hv r hr).2
  · cases c with
    | nil => simpa [logCurve] using hhead
    | cons p l => simpa [logCurve] using hhead
  · obtain ⟨r, hr, hx⟩ := hlast
    exact ⟨(r.1, Real.log r.2), List.mem_map_of_mem _ hr, hx⟩

/-- Helper: one interpolated-and-exponentiated curve lands in the half-open
unit interval. -/
theorem curve_unit (c : List (ℝ × ℝ)) (x : ℝ) (h : GoodCurve c x) :
    0 < Real.exp (interp1d (logCurve c) x) ∧ Real.exp (interp1d (logCurve c) x) ≤ 1 :=
  ⟨Real.exp_pos _, by
    have := interpLog_nonpos c x h.1 h.2.1 h.2.2.1 h.2.2.2
    calc Real.exp (interp1d (logCurve c) x) ≤ Real.exp 0 := Real.exp_le_exp.mpr this
    _ = 1 := Real.exp_zero⟩

/-- Helper: the zero remap is the identity on a curve with positive values. -/
theorem cleanZeros_eq_self (c : List (ℝ × ℝ)) (h : ∀ p ∈ c, 0 < p.2) :
    cleanZeros c = c := by
  induction c with
  | nil => rfl
  | cons p l ih =>
    have hp : p.2 ≠ 0 := (h p (List.mem_cons_self _ _)).ne'
    have hl := ih fun r hr => h r (List.mem_cons_of_mem _ hr)
    simp only [cleanZeros] at hl
    simp only [cleanZeros, List.map_cons, if_neg hp, Prod.mk.eta]
    rw [hl]

/-- C3: on a wavelength grid point inside the tabulated range of all four
curves, with curve values in the half-open unit interval, getSystemT satisfies
sys less-or-equal sysNObg3 and both composites lie in the half-open unit
interval. -/
theorem C3_getSystemT_bounds (bg3 wind qef atmc : List (ℝ × ℝ)) (x : ℝ)
    (hb : GoodCurve bg3 x) (hw : GoodCurve wind x) (hq : GoodCurve qef x)
    (ha : GoodCurve atmc x) :
    (getSystemT bg3 wind qef atmc x).sys ≤ (getSystemT bg3 wind qef atmc x).sysNObg3 ∧
    (0 < (getSystemT bg3 wind qef atmc x).sys ∧ (getSystemT bg3 wind qef atmc x).sys ≤ 1) ∧
    (0 < (getSystemT bg3 wind qef atmc x).sysNObg3 ∧
      (getSystemT bg3 wind qef atmc x).sysNObg3 ≤ 1) := by
  have hb2 := curve_unit bg3 x hb
  have hw2 := curve_unit wind x hw
  have hq2 := curve_unit qef x hq
  have hcl : cleanZeros atmc = atmc := cleanZeros_eq_self atmc fun p hp => (ha.2.1 p hp).1
  have ha2 : 0 < Real.exp (interp1d (logCurve (cleanZeros atmc)) x) ∧
      Real.exp (interp1d (logCurve (cleanZeros atmc)) x) ≤ 1 := by
    rw [hcl]; exact curve_unit atmc x ha
  simp only [getSystemT]
  set F := Real.exp (interp1d (logCurve bg3) x) with hF
  set W := Real.exp (interp1d (logCurve wind) x) with hW
  set Q := Real.exp (interp1d (logCurve qef) x) with hQ
  set A := Real.exp (interp1d (logCurve (cleanZeros atmc)) x) with hA
  have hnobpos : 0 < W * Q * A := mul_pos (mul_pos hw2.1 hq2.1) ha2.1
  have hWQ : W * Q ≤ 1 := mul_le_one₀ hw2.2 hq2.1.le hq2.2
  have hnoble : W * Q * A ≤ 1 := mul_le_one₀ hWQ ha2.1.le ha2.2
  refine ⟨?_, ⟨?_, ?_⟩, ?_, ?_⟩
  · exact mul_le_of_le_one_right hnobpos.le hb2.2
  · exact mul_pos hnobpos hb2.1
  · exact mul_le_one₀ hnoble hb2.1.le hb2.2
  · exact hnobpos
  · exact hnoble

/-- Witness for C3: four flat unit curves queried at wavelength 5 inside their
tabulated range. -/
theorem C3_getSystemT_witness :
    GoodCurve unitCurve 5 ∧
    ((getSystemT unitCurve unitCurve unitCurve unitCurve 5).sys ≤
      (getSystemT unitCurve unitCurve unitCurve unitCurve 5).sysNObg3 ∧
     (0 < (getSystemT unitCurve unitCurve unitCurve unitCurve 5).sys ∧
      (getSystemT unitCurve unitCurve unitCurve unitCurve 5).sys ≤ 1) ∧
     (0 < (getSystemT unitCurve unitCurve unitCurve unitCurve 5).sysNObg3 ∧
      (getSystemT unitCurve unitCurve unitCurve unitCurve 5).sysNObg3 ≤ 1)) := by
  have hg : GoodCurve unitCurve 5 := by
    refine ⟨?_, ?_, ?_, ⟨(10, 1), ?_, ?_⟩⟩
    · norm_num [unitCurve, List.chain'_cons, List.chain'_singleton]
    · intro p hp
      rcases List.mem_cons.mp hp with rfl | hp2
      · norm_num
      · rcases List.mem_cons.mp hp2 with rfl | hp3
        · norm_num
        · simp at hp3
    · norm_num [unitCurve]
    · norm_num [unitCurve]
    · norm_num
  exact ⟨hg, C3_getSystemT_bounds unitCurve unitCurve unitCurve unitCurve 5 hg hg hg hg⟩

/-- Counterexample to C4: the BG3 filter pipeline hands its samples to log
unchanged, so an exact-zero transmittance sample reaches the logarithm (giving
negative infinity in floating point); only the atmospheric curve is cleaned. -/
theorem C4_zero_remap_counterexample :
    (0 : ℝ) ∈ filterLogArgs [((500 : ℝ), 0)] := by
  simp [filterLogArgs]

/-- C4 (amended): only the atmospheric curve has its exact-zero samples
replaced by the smallest positive representable value before the logarithm;
for it, every nonnegative input sample yields a strictly positive log
argument, so no atmospheric log-domain value is negative infinity. -/
theorem C4_atm_zero_remap (atmc : List (ℝ × ℝ)) (h : ∀ p ∈ atmc, 0 ≤ p.2) :
    ∀ v ∈ atmLogArgs atmc, 0 < v := by
  intro v hv
  simp only [atmLogArgs, cleanZeros, List.map_map, List.mem_map,
    Function.comp_apply] at hv
  obtain ⟨p, hp, rfl⟩ := hv
  by_cases hz : p.2 = 0
  · simp only [if_pos hz, eps1]
    positivity
  · rw [if_neg hz]
    exact lt_of_le_of_ne (h p hp) (Ne.symm hz)

/-- Witness for C4: a concrete atmospheric curve with an exact-zero sample has
its log argument remapped to the positive value eps1. -/
theorem C4_atm_zero_remap_witness :
    eps1 ∈ atmLogArgs [((500 : ℝ), 0)] ∧ (0 : ℝ) < eps1 :=
  ⟨by simp [atmLogArgs, cleanZeros],
   C4_atm_zero_remap [((500 : ℝ), 0)] (by norm_num) eps1 (by simp [atmLogArgs, cleanZeros])⟩

/-! ### C8: the Chapman profile at its peak altitude -/

/-- C8: for every peak altitude and nonzero scale height, the Chapman profile
sampled at the peak altitude itself equals exactly one, independent of the
scale height. -/
theorem C8_chapman_peak (Z0 H : ℝ) (h : H ≠ 0) :
    chapman_profile Z0 [Z0] H = [1] := by
  simp [chapman_profile, sub_self, zero_div, Real.exp_zero]

/-- Witness for C8 at the documented example values: peak 110 km, scale height
20 km. -/
theorem C8_chapman_witness : chapman_profile 110 [110] 20 = [1] :=
  C8_chapman_peak 110 20 (by norm_num)
